import Mathlib

/-!
Verification of the repository-actions controller of pulpcore
(`src/pulp/server/webservices/controllers/repositories.py`) and of the
`TaskSchedule` storage contract (`pulpcore/app/migrations/0087_taskschedule.py`).

The controller code is embedded shallowly: request bodies become association
lists of JSON-ish values, the external api layer (`RepoApi`, the async task
registry) becomes an explicit environment of oracle functions, and each
controller method becomes a Lean function from the environment and the request
to an HTTP-style response together with the task it created (if any).
Helpers that live in base classes outside the given sources
(`AsyncController`, the async task module, the Django storage layer) are
modelled from the spec and marked as such in their doc comments.
-/

namespace Pulp

/-- A JSON-ish value appearing in a request body (the de-serialized result of
`self.params()` in the controller). -/
inductive PValue where
| str (s : String)
| num (n : Int)
| boolean (b : Bool)
| strlist (l : List String)
| dict (d : List (String × String))
| null
deriving DecidableEq, Repr

/-- A de-serialized request body: a Python dict, keyed by strings. -/
abbrev Params := List (String × PValue)

/-- Python `p[k]` / `p.get(k)`: dictionary lookup. -/
def Params.get (p : Params) (k : String) : Option PValue :=
  List.lookup k p

/-- Python `p.get(k, d)`: dictionary lookup with a default. -/
def Params.getD (p : Params) (k : String) (d : PValue) : PValue :=
  (Params.get p k).getD d

/-- Python `str(v)` as used by `'%s' % v` message formatting. -/
def PValue.toStr : PValue → String
| .str s => s
| .num n => toString n
| .boolean b => toString b
| .strlist _ => "[...]"
| .dict _ => "{...}"
| .null => "None"

/-- Lifecycle states of an asynchronous task (spec §3, Task Record `state`). -/
inductive TaskState where
| queued
| running
| finished
| failed
| canceled
deriving DecidableEq, Repr

/-- An asynchronous task record as the controller sees it: identity, the
method the async layer runs for it (`_sync` for repository syncs), the
invocation arguments used for history lookups, and the lifecycle state. -/
structure Task where
  id : String
  method_name : String
  args : List String
  kwargs : List (String × String)
  state : TaskState
deriving DecidableEq, Repr

/-- Modelled from the spec: `AsyncController._status_path` (base controller not
in the given sources) builds the status path for a task id; only its
dependence on the task id matters to the claims. -/
def status_path_of (tid : String) : String :=
  tid ++ "/"

/-- Modelled from the spec: `AsyncController._task_to_dict` serializes a task
record for a response body; `status_path` is absent until the handler adds it. -/
structure TaskInfo where
  id : String
  state : TaskState
  status_path : Option String
deriving DecidableEq, Repr

/-- `self._task_to_dict(task)`: the serialized record, without a status path. -/
def task_to_dict (t : Task) : TaskInfo :=
  { id := t.id, state := t.state, status_path := none }

/-- `task_info = self._task_to_dict(task); task_info['status_path'] =
self._status_path(task.id)`, as done by the `sync` and `clone` handlers and
the history `GET`. -/
def taskInfoOf (t : Task) : TaskInfo :=
  { task_to_dict t with status_path := some (status_path_of t.id) }

/-- Response bodies produced by the embedded handlers. -/
inductive RBody where
| pvalue (v : PValue)
| taskInfo (t : TaskInfo)
| taskInfos (ts : List TaskInfo)
deriving DecidableEq, Repr

/-- HTTP-style controller responses. `error` embeds an uncaught Python
exception (propagated to the `@JSONController.error_handler` decorator, whose
base class is outside the given sources); it is distinct from the explicit
`self.internal_server_error(...)` call sites. -/
inductive Response where
| ok (body : RBody)
| accepted (body : RBody)
| conflict (msg : String)
| notAcceptable (msg : String)
| notFound (msg : String)
| noContent
| internalServerError (msg : String)
| error (msg : String)
deriving DecidableEq, Repr

/-- Whether a response came from an explicit `self.internal_server_error` call. -/
def Response.isInternalServerError : Response → Bool
| .internalServerError _ => true
| _ => false

/-- The slice of a repository record the action handlers read:
`api.repository(id, fields=['source'])` / `fields=['id']`. A repository with
`source = none` has no configured upstream. -/
structure Repo where
  id : String
  source : Option String
deriving DecidableEq, Repr

/-- The external api layer (`RepoApi` and the async task machinery) as an
oracle environment: `repository` is `api.repository(id, fields)` (field
selection dropped, both call sites only read `id`/`source`), `apiSync` is
`api.sync(id, timeout, skip)` returning the created task or `None` on
conflict, `apiClone` is `api.clone(id, clone_id, clone_name, feed,
relative_path, groupid, filters)`, and `apiValue` abstracts the return value
of the remaining pass-through api calls (keyed by api function name and
repository id). -/
structure Env where
  repository : String → Option Repo
  apiSync : String → Option PValue → PValue → Option Task
  apiClone : String → PValue → PValue → PValue → Option PValue → Option PValue → PValue → Option Task
  apiValue : String → String → PValue

/-- `api.repository(repo_data['clone_id'], default_fields)`: repository lookup
keyed by an arbitrary body value; a non-string id matches no repository. -/
def Env.repositoryOfValue (env : Env) : PValue → Option Repo
| .str s => env.repository s
| _ => none

/-- A handler outcome: the HTTP response together with the task the api layer
created during the call (`none` when no task was created). -/
abbrev HResult := Response × Option Task

/-- Modelled from the spec: `AsyncController.timeout` (base controller not in
the given sources) extracts the advisory timeout parameter from the request
body and passes it through to the api layer. -/
def AsyncController.timeout (p : Params) : Option PValue :=
  Params.get p "timeout"

namespace RepositoryActions

/-- `RepositoryActions.sync` (repositories.py lines 498–525): re-fetch the
repository's `source` field (a missing repository makes `repo['source']`
raise, embedded as `.error`), return `406 Not Acceptable` when there is no
upstream source, otherwise read the timeout and skip parameters, call
`api.sync`, and return `409 Conflict` when it yields no task or
`202 Accepted` with the serialized task plus its status path. -/
def sync (env : Env) (id : String) (p : Params) : HResult :=
  match env.repository id with
  | none => (.error "TypeError", none)
  | some repo =>
    match repo.source with
    | none =>
      (.notAcceptable ("Repo [" ++ id ++ "] is not setup for sync. Please add packages using upload."), none)
    | some _ =>
      let timeout := AsyncController.timeout p
      let skip := Params.getD p "skip" (.dict [])
      match env.apiSync id timeout skip with
      | none => (.conflict ("Sync already in process for repo [" ++ id ++ "]"), none)
      | some task => (.accepted (.taskInfo (taskInfoOf task)), some task)

/-- `_sync = sync` (repositories.py line 528): the `_sync` attribute is bound
to the very same function object as `sync`. -/
def _sync : Env → String → Params → HResult := sync

/-- `RepositoryActions.clone` (repositories.py lines 530–567): `404` when the
source repository does not exist, `409` when `clone_id` names an existing
repository, otherwise call `api.clone` and return `409` when it yields no
task or `202 Accepted` with the serialized task plus its status path. A
missing required body key raises `KeyError`, embedded as `.error`. -/
def clone (env : Env) (id : String) (p : Params) : HResult :=
  if (env.repository id).isNone then
    (.notFound ("A repository with the id, " ++ id ++ ", does not exist"), none)
  else
    match Params.get p "clone_id" with
    | none => (.error "KeyError", none)
    | some cid =>
      if (env.repositoryOfValue cid).isSome then
        (.conflict ("A repository with the id, " ++ cid.toStr ++ ", already exists"), none)
      else
        match Params.get p "clone_name", Params.get p "feed" with
        | some cname, some feed =>
          match env.apiClone id cid cname feed (Params.get p "relative_path")
              (Params.get p "groupid") (Params.getD p "filters" (.strlist [])) with
          | none => (.conflict ("Error in cloning repo [" ++ id ++ "]"), none)
          | some task => (.accepted (.taskInfo (taskInfoOf task)), some task)
        | _, _ => (.error "KeyError", none)

/-- `RepositoryActions.upload`: calls `api.upload(id, data['pkginfo'],
data['pkgstream'])` and returns `200 OK` with `True`; a missing required key
raises `KeyError`. -/
def upload (env : Env) (id : String) (p : Params) : HResult :=
  match Params.get p "pkginfo", Params.get p "pkgstream" with
  | some _, some _ => (.ok (.pvalue (.boolean true)), none)
  | _, _ => (.error "KeyError", none)

/-- `RepositoryActions.add_package`: returns `200 OK` with the error list from
`api.add_package(id, data['packageid'])`. -/
def add_package (env : Env) (id : String) (p : Params) : HResult :=
  match Params.get p "packageid" with
  | some _ => (.ok (.pvalue (env.apiValue "add_package" id)), none)
  | none => (.error "KeyError", none)

/-- `RepositoryActions.delete_package`: calls
`api.remove_packages(id, data['package'])` and returns `200 OK` with `True`. -/
def delete_package (env : Env) (id : String) (p : Params) : HResult :=
  match Params.get p "package" with
  | some _ => (.ok (.pvalue (.boolean true)), none)
  | none => (.error "KeyError", none)

/-- `RepositoryActions.get_package`: returns `200 OK` with the result of
`api.get_package(id, name)` where `name` is the whole body. -/
def get_package (env : Env) (id : String) (p : Params) : HResult :=
  (.ok (.pvalue (env.apiValue "get_package" id)), none)

/-- `RepositoryActions.add_packages_to_group`: `404` when `groupid` or
`packagenames` is missing, else `200 OK` with the api result. -/
def add_packages_to_group (env : Env) (id : String) (p : Params) : HResult :=
  if (Params.get p "groupid").isNone then (.notFound "No groupid specified", none)
  else if (Params.get p "packagenames").isNone then (.notFound "No package name specified", none)
  else (.ok (.pvalue (env.apiValue "add_packages_to_group" id)), none)

/-- `RepositoryActions.delete_package_from_group`: `404` when `groupid` or
`name` is missing, else `200 OK` with the api result. -/
def delete_package_from_group (env : Env) (id : String) (p : Params) : HResult :=
  if (Params.get p "groupid").isNone then (.notFound "No groupid specified", none)
  else if (Params.get p "name").isNone then (.notFound "No package name specified", none)
  else (.ok (.pvalue (env.apiValue "delete_package_from_group" id)), none)

/-- `RepositoryActions.create_packagegroup`: `404` when `groupid`, `groupname`
or `description` is missing, else `200 OK` with the api result. -/
def create_packagegroup (env : Env) (id : String) (p : Params) : HResult :=
  if (Params.get p "groupid").isNone then (.notFound "No groupid specified", none)
  else if (Params.get p "groupname").isNone then (.notFound "No groupname specified", none)
  else if (Params.get p "description").isNone then (.notFound "No description specified", none)
  else (.ok (.pvalue (env.apiValue "create_packagegroup" id)), none)

/-- `RepositoryActions.import_comps`: `200 OK` with the result of
`api.import_comps(id, comps_data)`. -/
def import_comps (env : Env) (id : String) (p : Params) : HResult :=
  (.ok (.pvalue (env.apiValue "import_comps" id)), none)

/-- `RepositoryActions.delete_packagegroup`: `404` when `groupid` is missing,
else `200 OK` with the api result. -/
def delete_packagegroup (env : Env) (id : String) (p : Params) : HResult :=
  if (Params.get p "groupid").isNone then (.notFound "No groupid specified", none)
  else (.ok (.pvalue (env.apiValue "delete_packagegroup" id)), none)

/-- `RepositoryActions.create_packagegroupcategory`: `404` when `categoryid`,
`categoryname` or `description` is missing, else `200 OK` with the api result. -/
def create_packagegroupcategory (env : Env) (id : String) (p : Params) : HResult :=
  if (Params.get p "categoryid").isNone then (.notFound "No categoryid specified", none)
  else if (Params.get p "categoryname").isNone then (.notFound "No categoryname specified", none)
  else if (Params.get p "description").isNone then (.notFound "No description specified", none)
  else (.ok (.pvalue (env.apiValue "create_packagegroupcategory" id)), none)

/-- `RepositoryActions.delete_packagegroupcategory`: `404` when `categoryid`
is missing, else `200 OK` with the api result. -/
def delete_packagegroupcategory (env : Env) (id : String) (p : Params) : HResult :=
  if (Params.get p "categoryid").isNone then (.notFound "No categoryid specified", none)
  else (.ok (.pvalue (env.apiValue "delete_packagegroupcategory" id)), none)

/-- `RepositoryActions.add_packagegroup_to_category`: `404` when `categoryid`
or `groupid` is missing, else `200 OK` with the api result. -/
def add_packagegroup_to_category (env : Env) (id : String) (p : Params) : HResult :=
  if (Params.get p "categoryid").isNone then (.notFound "No categoryid specified", none)
  else if (Params.get p "groupid").isNone then (.notFound "No groupid specified", none)
  else (.ok (.pvalue (env.apiValue "add_packagegroup_to_category" id)), none)

/-- `RepositoryActions.delete_packagegroup_from_category`: `404` when
`categoryid` or `groupid` is missing, else `200 OK` with the api result. -/
def delete_packagegroup_from_category (env : Env) (id : String) (p : Params) : HResult :=
  if (Params.get p "categoryid").isNone then (.notFound "No categoryid specified", none)
  else if (Params.get p "groupid").isNone then (.notFound "No groupid specified", none)
  else (.ok (.pvalue (env.apiValue "delete_packagegroup_from_category" id)), none)

/-- `RepositoryActions.add_errata`: calls `api.add_errata(id,
data['errataid'])` and returns `200 OK` with `True`. -/
def add_errata (env : Env) (id : String) (p : Params) : HResult :=
  match Params.get p "errataid" with
  | some _ => (.ok (.pvalue (.boolean true)), none)
  | none => (.error "KeyError", none)

/-- `RepositoryActions.delete_errata`: calls `api.delete_errata(id,
data['errataid'])` and returns `200 OK` with `True`. -/
def delete_errata (env : Env) (id : String) (p : Params) : HResult :=
  match Params.get p "errataid" with
  | some _ => (.ok (.pvalue (.boolean true)), none)
  | none => (.error "KeyError", none)

/-- `RepositoryActions.add_file`: calls `api.add_file(id, data['fileids'])`
and returns `200 OK` with `True`. -/
def add_file (env : Env) (id : String) (p : Params) : HResult :=
  match Params.get p "fileids" with
  | some _ => (.ok (.pvalue (.boolean true)), none)
  | none => (.error "KeyError", none)

/-- `RepositoryActions.remove_file`: calls `api.remove_file(id,
data['fileids'])` and returns `200 OK` with `True`. -/
def remove_file (env : Env) (id : String) (p : Params) : HResult :=
  match Params.get p "fileids" with
  | some _ => (.ok (.pvalue (.boolean true)), none)
  | none => (.error "KeyError", none)

/-- `RepositoryActions.addkeys`: calls `api.addkeys(id, data['keylist'])` and
returns `200 OK` with `True`. -/
def addkeys (env : Env) (id : String) (p : Params) : HResult :=
  match Params.get p "keylist" with
  | some _ => (.ok (.pvalue (.boolean true)), none)
  | none => (.error "KeyError", none)

/-- `RepositoryActions.get_package_by_nvrea`: `200 OK` with the result of
`api.get_packages_by_nvrea(id, data['nvrea'])`. -/
def get_package_by_nvrea (env : Env) (id : String) (p : Params) : HResult :=
  match Params.get p "nvrea" with
  | some _ => (.ok (.pvalue (env.apiValue "get_packages_by_nvrea" id)), none)
  | none => (.error "KeyError", none)

/-- `RepositoryActions.get_package_by_filename`: `200 OK` with the result of
`api.get_packages_by_filename(id, data['filename'])`. -/
def get_package_by_filename (env : Env) (id : String) (p : Params) : HResult :=
  match Params.get p "filename" with
  | some _ => (.ok (.pvalue (env.apiValue "get_packages_by_filename" id)), none)
  | none => (.error "KeyError", none)

/-- `RepositoryActions.rmkeys`: calls `api.rmkeys(id, data['keylist'])` and
returns `200 OK` with `True`. -/
def rmkeys (env : Env) (id : String) (p : Params) : HResult :=
  match Params.get p "keylist" with
  | some _ => (.ok (.pvalue (.boolean true)), none)
  | none => (.error "KeyError", none)

/-- `RepositoryActions.add_filters`: calls `api.add_filters(id=id,
filter_ids=data['filters'])` and returns `200 OK` with `True`. -/
def add_filters (env : Env) (id : String) (p : Params) : HResult :=
  match Params.get p "filters" with
  | some _ => (.ok (.pvalue (.boolean true)), none)
  | none => (.error "KeyError", none)

/-- `RepositoryActions.remove_filters`: calls `api.remove_filters(id=id,
filter_ids=data['filters'])` and returns `200 OK` with `True`. -/
def remove_filters (env : Env) (id : String) (p : Params) : HResult :=
  match Params.get p "filters" with
  | some _ => (.ok (.pvalue (.boolean true)), none)
  | none => (.error "KeyError", none)

/-- `RepositoryActions.add_group`: calls `api.add_group(id=id,
addgrp=data['addgrp'])` and returns `200 OK` with `True`. -/
def add_group (env : Env) (id : String) (p : Params) : HResult :=
  match Params.get p "addgrp" with
  | some _ => (.ok (.pvalue (.boolean true)), none)
  | none => (.error "KeyError", none)

/-- `RepositoryActions.remove_group`: calls `api.remove_group(id=id,
rmgrp=data['rmgrp'])` and returns `200 OK` with `True`. -/
def remove_group (env : Env) (id : String) (p : Params) : HResult :=
  match Params.get p "rmgrp" with
  | some _ => (.ok (.pvalue (.boolean true)), none)
  | none => (.error "KeyError", none)

/-- `RepositoryActions.update_publish`: `200 OK` with the result of
`api.publish(id, bool(data['state']))`. -/
def update_publish (env : Env) (id : String) (p : Params) : HResult :=
  match Params.get p "state" with
  | some _ => (.ok (.pvalue (env.apiValue "publish" id)), none)
  | none => (.error "KeyError", none)

end RepositoryActions

/-- The distinct action-handler methods defined on the `RepositoryActions`
class (`_sync` is not listed separately: `_sync = sync` binds the same
function object). -/
inductive ActionHandler where
| sync | clone | upload | add_package | delete_package | get_package
| add_file | remove_file | add_packages_to_group | delete_package_from_group
| delete_packagegroup | create_packagegroup | create_packagegroupcategory
| delete_packagegroupcategory | add_packagegroup_to_category
| delete_packagegroup_from_category | add_errata | delete_errata
| get_package_by_nvrea | get_package_by_filename | addkeys | rmkeys
| update_publish | import_comps | add_filters | remove_filters
| add_group | remove_group
deriving DecidableEq, Repr

/-- `getattr(self, action_name, None)` restricted to the action-handler
attributes of `RepositoryActions`; `"_sync"` resolves to the same handler as
`"sync"` because of the `_sync = sync` binding. -/
def getAction : String → Option ActionHandler
| "sync" => some .sync
| "_sync" => some .sync
| "clone" => some .clone
| "upload" => some .upload
| "add_package" => some .add_package
| "delete_package" => some .delete_package
| "get_package" => some .get_package
| "add_file" => some .add_file
| "remove_file" => some .remove_file
| "add_packages_to_group" => some .add_packages_to_group
| "delete_package_from_group" => some .delete_package_from_group
| "delete_packagegroup" => some .delete_packagegroup
| "create_packagegroup" => some .create_packagegroup
| "create_packagegroupcategory" => some .create_packagegroupcategory
| "delete_packagegroupcategory" => some .delete_packagegroupcategory
| "add_packagegroup_to_category" => some .add_packagegroup_to_category
| "delete_packagegroup_from_category" => some .delete_packagegroup_from_category
| "add_errata" => some .add_errata
| "delete_errata" => some .delete_errata
| "get_package_by_nvrea" => some .get_package_by_nvrea
| "get_package_by_filename" => some .get_package_by_filename
| "addkeys" => some .addkeys
| "rmkeys" => some .rmkeys
| "update_publish" => some .update_publish
| "import_comps" => some .import_comps
| "add_filters" => some .add_filters
| "remove_filters" => some .remove_filters
| "add_group" => some .add_group
| "remove_group" => some .remove_group
| _ => none

/-- Invoking a resolved handler method (`action(id)` in `POST`). -/
def runAction (env : Env) (id : String) (p : Params) : ActionHandler → HResult
| .sync => RepositoryActions.sync env id p
| .clone => RepositoryActions.clone env id p
| .upload => RepositoryActions.upload env id p
| .add_package => RepositoryActions.add_package env id p
| .delete_package => RepositoryActions.delete_package env id p
| .get_package => RepositoryActions.get_package env id p
| .add_file => RepositoryActions.add_file env id p
| .remove_file => RepositoryActions.remove_file env id p
| .add_packages_to_group => RepositoryActions.add_packages_to_group env id p
| .delete_package_from_group => RepositoryActions.delete_package_from_group env id p
| .delete_packagegroup => RepositoryActions.delete_packagegroup env id p
| .create_packagegroup => RepositoryActions.create_packagegroup env id p
| .create_packagegroupcategory => RepositoryActions.create_packagegroupcategory env id p
| .delete_packagegroupcategory => RepositoryActions.delete_packagegroupcategory env id p
| .add_packagegroup_to_category => RepositoryActions.add_packagegroup_to_category env id p
| .delete_packagegroup_from_category => RepositoryActions.delete_packagegroup_from_category env id p
| .add_errata => RepositoryActions.add_errata env id p
| .delete_errata => RepositoryActions.delete_errata env id p
| .get_package_by_nvrea => RepositoryActions.get_package_by_nvrea env id p
| .get_package_by_filename => RepositoryActions.get_package_by_filename env id p
| .addkeys => RepositoryActions.addkeys env id p
| .rmkeys => RepositoryActions.rmkeys env id p
| .update_publish => RepositoryActions.update_publish env id p
| .import_comps => RepositoryActions.import_comps env id p
| .add_filters => RepositoryActions.add_filters env id p
| .remove_filters => RepositoryActions.remove_filters env id p
| .add_group => RepositoryActions.add_group env id p
| .remove_group => RepositoryActions.remove_group env id p

/-- `RepositoryActions.exposed_actions` (repositories.py lines 466–496), in
source order; the URL table routes exactly these names to the controller. -/
def exposed_actions : List String :=
  ["sync", "_sync", "clone", "upload", "add_package", "delete_package",
   "get_package", "add_file", "remove_file", "add_packages_to_group",
   "delete_package_from_group", "delete_packagegroup", "create_packagegroup",
   "create_packagegroupcategory", "delete_packagegroupcategory",
   "add_packagegroup_to_category", "delete_packagegroup_from_category",
   "add_errata", "delete_errata", "get_package_by_nvrea",
   "get_package_by_filename", "addkeys", "rmkeys", "update_publish",
   "import_comps", "add_filters", "remove_filters", "add_group",
   "remove_group"]

/-- `RepositoryActions.POST` (repositories.py lines 1053–1072): `404` when
the repository does not exist, `500` via `self.internal_server_error` when no
handler attribute matches the action name, otherwise invoke the handler. -/
def RepositoryActions.POST (env : Env) (id action_name : String) (p : Params) : HResult :=
  if (env.repository id).isNone then
    (.notFound ("No repository with id " ++ id ++ " found"), none)
  else
    match getAction action_name with
    | none => (.internalServerError ("No implementation for " ++ action_name ++ " found"), none)
    | some h => runAction env id p h

/-- Modelled from the spec: `find_async(method_name=...)` (async task module
not in the given sources) returns all task records whose method name matches;
the registry list is kept in creation order, so results are ordered by
creation time. -/
def find_async (registry : List Task) (method_name : String) : List Task :=
  registry.filter (fun t => t.method_name == method_name)

/-- The `action_methods` dict of `RepositoryActions.GET` (repositories.py
lines 1080–1083). -/
def action_methods : List (String × String) :=
  [("sync", "_sync"), ("_sync", "_sync")]

/-- The task filter of `RepositoryActions.GET`:
`(t.args and id in t.args) or (t.kwargs and id in t.kwargs.values())`. -/
def historyMatches (id : String) (t : Task) : Bool :=
  (!t.args.isEmpty && t.args.contains id) ||
    (!t.kwargs.isEmpty && (t.kwargs.map Prod.snd).contains id)

/-- `RepositoryActions.GET` (repositories.py lines 1074–1098): task history
for an action on a repository. `404` unless the action name is a key of
`action_methods`; otherwise collect the matching `_sync` tasks, `404` when
there are none, else `200 OK` with their serialized records plus status
paths. -/
def RepositoryActions.GET (registry : List Task) (id action_name : String) : Response :=
  match List.lookup action_name action_methods with
  | none => .notFound ("No information for " ++ action_name ++ " on repository " ++ id)
  | some m =>
    let tasks := (find_async registry m).filter (historyMatches id)
    if tasks.isEmpty then
      .notFound ("No recent " ++ action_name ++ " on repository " ++ id ++ " found")
    else
      .ok (.taskInfos (tasks.map taskInfoOf))

/-- Modelled from the spec: `AsyncController.find_task` (base controller not
in the given sources) looks a task up in the registry by its id. -/
def find_task (registry : List Task) (tid : String) : Option Task :=
  registry.find? (fun t => t.id == tid)

/-- Modelled from the spec: `AsyncController.task_status` returns the
serialized record of the task with the given id, or `None` when there is no
such task — never an empty or default record. -/
def task_status (registry : List Task) (tid : String) : Option TaskInfo :=
  (find_task registry tid).map task_to_dict

/-- Modelled from the spec: `AsyncController.cancel_task` cancels a task that
is still cancelable — `QUEUED` or `RUNNING` — transitioning it to `CANCELED`
and reporting success; a task already in a terminal state is left unchanged
and the cancellation reports failure (already complete). -/
def cancel_task (t : Task) : Option Task :=
  if t.state = .queued ∨ t.state = .running then
    some { t with state := .canceled }
  else
    none

/-- Writing the mutated task record back into the registry (in the source the
task object is mutated in place; with explicit state passing the entry with
the canceled task's id is replaced). -/
def setTask (registry : List Task) (tid : String) (t : Task) : List Task :=
  registry.map (fun u => if u.id == tid then t else u)

/-- `RepositoryActionStatus.GET` (repositories.py lines 1105–1116): `404`
when no task with the given id exists, else `200 OK` with its status record. -/
def RepositoryActionStatus.GET (registry : List Task) (id action_name action_id : String) : Response :=
  match task_status registry action_id with
  | none => .notFound ("No " ++ action_name ++ " with id " ++ action_id ++ " found")
  | some info => .ok (.taskInfo info)

/-- `RepositoryActionStatus.DELETE` (repositories.py lines 1118–1132): `404`
when no task with the given id exists; `202 Accepted` with the (now canceled)
task record when `cancel_task` succeeds; `204 No Content`, with nothing
changed, when the task is already complete. Returns the response together
with the updated registry. -/
def RepositoryActionStatus.DELETE (registry : List Task) (id action_name action_id : String) :
    Response × List Task :=
  match find_task registry action_id with
  | none =>
    (.notFound ("No " ++ action_name ++ " with id " ++ action_id ++ " found"), registry)
  | some task =>
    match cancel_task task with
    | some task' => (.accepted (.taskInfo (task_to_dict task')), setTask registry action_id task')
    | none => (.noContent, registry)

/-- The `TaskSchedule` record created by migration `0087_taskschedule.py`:
`dispatch_interval` is a nullable duration, `name` is unique, `next_dispatch`
defaults to the creation time, and `last_task` is a nullable task reference
with on-delete set-null. Timestamps and durations are modelled as naturals. -/
structure TaskSchedule where
  pulp_id : String
  pulp_created : Nat
  dispatch_interval : Option Nat
  name : String
  next_dispatch : Option Nat
  task_name : String
  last_task : Option String
deriving DecidableEq, Repr

/-- Errors of the schedule storage contract. -/
inductive ScheduleError where
| nameConflict
deriving DecidableEq, Repr

/-- Modelled from the spec: creating a schedule in the storage layer (the
Django model behind migration 0087). The unique constraint on `name` rejects
a duplicate name with a name conflict, leaving the store unchanged;
otherwise the new record is appended with `next_dispatch` defaulted to the
creation time (`default=django.utils.timezone.now`) and no last task. -/
def createSchedule (store : List TaskSchedule) (now : Nat) (pid : String)
    (interval : Option Nat) (name task_name : String) :
    Except ScheduleError (List TaskSchedule) :=
  if store.any (fun s => s.name == name) then
    .error .nameConflict
  else
    .ok (store ++ [{ pulp_id := pid, pulp_created := now, dispatch_interval := interval,
                     name := name, next_dispatch := some now, task_name := task_name,
                     last_task := none }])

/-- Modelled from the spec: `on_delete=SET_NULL` on `last_task` — deleting a
task clears every schedule reference to it. -/
def deleteTaskRefs (store : List TaskSchedule) (tid : String) : List TaskSchedule :=
  store.map (fun s => if s.last_task = some tid then { s with last_task := none } else s)

/-- Modelled from the spec: looking up a schedule's last dispatched task; a
null reference resolves to "no task found", never a crash. -/
def lookupLastTask (tasks : List Task) (s : TaskSchedule) : Option Task :=
  s.last_task.bind (fun tid => tasks.find? (fun t => t.id == tid))

/-! ## Helper lemmas -/

/-- Replacing the entry a successful registry lookup found, by a task with the
same id, is what the next lookup under the same id returns. -/
theorem find_task_setTask (registry : List Task) (tid : String) (t t' : Task)
    (hfind : find_task registry tid = some t) (hid : t'.id = t.id) :
    find_task (setTask registry tid t') tid = some t' := by
  induction registry with
  | nil => simp [find_task] at hfind
  | cons a l ih =>
    by_cases h : (a.id == tid) = true
    · have hta : t = a := by
        unfold find_task at hfind
        rw [List.find?_cons_of_pos l h] at hfind
        exact (Option.some.inj hfind).symm
      have ht' : (t'.id == tid) = true := by
        rw [hid, hta]; exact h
      unfold find_task setTask
      simp only [List.map_cons, h, if_true]
      exact List.find?_cons_of_pos _ ht'
    · have hfind' : find_task l tid = some t := by
        unfold find_task at hfind ⊢
        rwa [List.find?_cons_of_neg l h] at hfind
      have := ih hfind'
      unfold find_task setTask at this ⊢
      simp only [List.map_cons]
      rw [if_neg h]
      have step :
          List.find? (fun u => u.id == tid)
            (a :: List.map (fun u => if (u.id == tid) = true then t' else u) l) =
          List.find? (fun u => u.id == tid)
            (List.map (fun u => if (u.id == tid) = true then t' else u) l) :=
        List.find?_cons_of_neg _ h
      exact step.trans this

/-- No action-handler method ever calls `self.internal_server_error`: the
explicit 500 in `POST` is the only such call site. -/
theorem runAction_not_ise (h : ActionHandler) (env : Env) (id : String) (p : Params) :
    (runAction env id p h).1.isInternalServerError = false := by
  cases h <;>
    simp only [runAction, RepositoryActions.sync, RepositoryActions.clone,
      RepositoryActions.upload, RepositoryActions.add_package,
      RepositoryActions.delete_package, RepositoryActions.get_package,
      RepositoryActions.add_file, RepositoryActions.remove_file,
      RepositoryActions.add_packages_to_group,
      RepositoryActions.delete_package_from_group,
      RepositoryActions.delete_packagegroup, RepositoryActions.create_packagegroup,
      RepositoryActions.create_packagegroupcategory,
      RepositoryActions.delete_packagegroupcategory,
      RepositoryActions.add_packagegroup_to_category,
      RepositoryActions.delete_packagegroup_from_category,
      RepositoryActions.add_errata, RepositoryActions.delete_errata,
      RepositoryActions.get_package_by_nvrea,
      RepositoryActions.get_package_by_filename, RepositoryActions.addkeys,
      RepositoryActions.rmkeys, RepositoryActions.update_publish,
      RepositoryActions.import_comps, RepositoryActions.add_filters,
      RepositoryActions.remove_filters, RepositoryActions.add_group,
      RepositoryActions.remove_group] <;>
    (repeat' split) <;> rfl

/-- Every exposed action name resolves to a handler. -/
theorem getAction_exposed_all :
    exposed_actions.all (fun a => (getAction a).isSome) = true := by decide

/-- The empty-list guard in the history filter is redundant:
`l and (x in l)` equals `x in l`. -/
theorem guard_contains (l : List String) (x : String) :
    (!l.isEmpty && l.contains x) = l.contains x := by
  cases l <;> simp

/-! ## Concrete fixtures used by the witness theorems -/

/-- A repository with a configured upstream source. -/
def repoA : Repo := { id := "repo-a", source := some "yum:http://example.com/repo" }

/-- A repository without an upstream source. -/
def repoNoSource : Repo := { id := "repo-b", source := none }

/-- A queued sync task on `repo-a`. -/
def taskA : Task :=
  { id := "task-1", method_name := "_sync", args := ["repo-a"], kwargs := [], state := .queued }

/-- An environment where every repository lookup hits `repoA` and `api.sync`
creates `taskA`. -/
def envAccept : Env :=
  { repository := fun _ => some repoA
    apiSync := fun _ _ _ => some taskA
    apiClone := fun _ _ _ _ _ _ _ => none
    apiValue := fun _ _ => .null }

/-- Like `envAccept` but `api.sync` reports an active conflicting sync. -/
def envConflict : Env := { envAccept with apiSync := fun _ _ _ => none }

/-- An environment whose repository lookups hit the source-less `repoNoSource`. -/
def envNoSource : Env := { envAccept with repository := fun _ => some repoNoSource }

/-- An environment with no repositories at all. -/
def envEmpty : Env := { envAccept with repository := fun _ => none }

/-- A recurring schedule referencing `taskA` as its last dispatched task. -/
def schedNightly : TaskSchedule :=
  { pulp_id := "uuid-1", pulp_created := 5, dispatch_interval := some 3600,
    name := "nightly", next_dispatch := some 5, task_name := "sync",
    last_task := some "task-1" }

/-! ## The claims -/

/-- C1: dispatching the `sync` action on an existing repository with a
configured source returns `409 Conflict` and creates no task when the
underlying `api.sync` call yields no task (a conflicting sync is active), and
returns `202 Accepted` with a body carrying the task id and a status path
(and the created task) when `api.sync` yields a task. -/
theorem sync_dispatch_conflict_or_accepted (env : Env) (id : String) (p : Params)
    (repo : Repo) (src : String)
    (hrepo : env.repository id = some repo) (hsrc : repo.source = some src) :
    (env.apiSync id (AsyncController.timeout p) (Params.getD p "skip" (.dict [])) = none →
      RepositoryActions.POST env id "sync" p =
        (.conflict ("Sync already in process for repo [" ++ id ++ "]"), none))
    ∧ (∀ task,
      env.apiSync id (AsyncController.timeout p) (Params.getD p "skip" (.dict [])) = some task →
      RepositoryActions.POST env id "sync" p =
        (.accepted (.taskInfo { id := task.id, state := task.state,
                                status_path := some (status_path_of task.id) }),
          some task)) := by
  constructor
  · intro hnone
    simp [RepositoryActions.POST, RepositoryActions.sync, getAction, runAction,
      hrepo, hsrc, hnone]
  · intro task htask
    simp [RepositoryActions.POST, RepositoryActions.sync, getAction, runAction,
      hrepo, hsrc, htask, taskInfoOf, task_to_dict]

/-- C1 witness: on `repo-a`, a conflicting environment yields `409` with no
task, and a conflict-free environment yields `202` with the task id and
status path. -/
theorem sync_dispatch_conflict_or_accepted_witness :
    RepositoryActions.POST envConflict "repo-a" "sync" [] =
      (.conflict "Sync already in process for repo [repo-a]", none)
    ∧ RepositoryActions.POST envAccept "repo-a" "sync" [] =
      (.accepted (.taskInfo { id := "task-1", state := .queued, status_path := some "task-1/" }),
        some taskA) :=
  ⟨(sync_dispatch_conflict_or_accepted envConflict "repo-a" [] repoA
      "yum:http://example.com/repo" rfl rfl).1 rfl,
   (sync_dispatch_conflict_or_accepted envAccept "repo-a" [] repoA
      "yum:http://example.com/repo" rfl rfl).2 taskA rfl⟩

/-- C2: dispatching `sync` on a repository whose `source` is `None` returns
`406 Not Acceptable` and creates no task; the response does not depend on the
`api.sync` oracle (so `api.sync` — which receives the timeout and skip
parameters — is never consulted), and any dispatch that does create a task
was on a repository with a configured source. -/
theorem sync_dispatch_no_source (env : Env) (id : String) (p : Params) (repo : Repo)
    (hrepo : env.repository id = some repo) (hsrc : repo.source = none) :
    RepositoryActions.POST env id "sync" p =
      (.notAcceptable ("Repo [" ++ id ++ "] is not setup for sync. Please add packages using upload."),
        none)
    ∧ (∀ f, RepositoryActions.POST { env with apiSync := f } id "sync" p =
        RepositoryActions.POST env id "sync" p)
    ∧ (∀ (env' : Env) (id' : String) (p' : Params),
        (RepositoryActions.POST env' id' "sync" p').2.isSome = true →
        ∃ repo' src', env'.repository id' = some repo' ∧ repo'.source = some src') := by
  refine ⟨?_, ?_, ?_⟩
  · simp [RepositoryActions.POST, RepositoryActions.sync, getAction, runAction, hrepo, hsrc]
  · intro f
    simp [RepositoryActions.POST, RepositoryActions.sync, getAction, runAction, hrepo, hsrc]
  · intro env' id' p' hsome
    rcases hrep : env'.repository id' with _ | repo'
    · simp [RepositoryActions.POST, hrep] at hsome
    · rcases hs : repo'.source with _ | src'
      · simp [RepositoryActions.POST, RepositoryActions.sync, getAction, runAction,
          hrep, hs] at hsome
      · exact ⟨repo', src', rfl, hs⟩

/-- C2 witness: on the source-less `repo-b`, dispatching `sync` yields `406`
and no task. -/
theorem sync_dispatch_no_source_witness :
    RepositoryActions.POST envNoSource "repo-b" "sync" [] =
      (.notAcceptable "Repo [repo-b] is not setup for sync. Please add packages using upload.",
        none) :=
  (sync_dispatch_no_source envNoSource "repo-b" [] repoNoSource rfl rfl).1

/-- C5: a clone dispatch on a nonexistent source repository returns `404 Not
Found`, and a clone dispatch whose `clone_id` names an existing repository
returns `409 Conflict`; in both cases no task is created and the outcome does
not depend on the `api.clone` oracle (so `api.clone` is never invoked). -/
theorem clone_dispatch_errors (env : Env) (id : String) (p : Params) :
    (env.repository id = none →
      RepositoryActions.clone env id p =
        (.notFound ("A repository with the id, " ++ id ++ ", does not exist"), none)
      ∧ ∀ f, RepositoryActions.clone { env with apiClone := f } id p =
          RepositoryActions.clone env id p)
    ∧ (∀ cid, (env.repository id).isSome = true → Params.get p "clone_id" = some cid →
        (env.repositoryOfValue cid).isSome = true →
        RepositoryActions.clone env id p =
          (.conflict ("A repository with the id, " ++ cid.toStr ++ ", already exists"), none)
        ∧ ∀ f, RepositoryActions.clone { env with apiClone := f } id p =
            RepositoryActions.clone env id p) := by
  constructor
  · intro hrepo
    constructor
    · simp [RepositoryActions.clone, hrepo]
    · intro f
      simp [RepositoryActions.clone, hrepo]
  · intro cid hrepo hcid hclone
    have hconf : ∀ (e : Env), e.repository = env.repository →
        RepositoryActions.clone e id p =
          (.conflict ("A repository with the id, " ++ cid.toStr ++ ", already exists"), none) := by
      intro e he
      have hof : e.repositoryOfValue cid = env.repositoryOfValue cid := by
        cases cid <;> simp [Env.repositoryOfValue, he]
      rcases hx : env.repository id with _ | r
      · rw [hx] at hrepo
        simp at hrepo
      · simp [RepositoryActions.clone, he, hx, hcid, hof, hclone]
    constructor
    · exact hconf env rfl
    · intro f
      rw [hconf { env with apiClone := f } rfl, hconf env rfl]

/-- C5 witness: cloning from a nonexistent repository yields `404`; cloning
into the id of the existing `repo-a` yields `409`; neither creates a task. -/
theorem clone_dispatch_errors_witness :
    RepositoryActions.clone envEmpty "repo-x" [("clone_id", .str "repo-y")] =
      (.notFound "A repository with the id, repo-x, does not exist", none)
    ∧ RepositoryActions.clone envAccept "repo-a" [("clone_id", .str "repo-a")] =
      (.conflict "A repository with the id, repo-a, already exists", none) :=
  ⟨((clone_dispatch_errors envEmpty "repo-x" [("clone_id", .str "repo-y")]).1 rfl).1,
   ((clone_dispatch_errors envAccept "repo-a" [("clone_id", .str "repo-a")]).2
      (.str "repo-a") rfl rfl rfl).1⟩

/-- C6: for every exposed action name, POSTing it on a repository id that
matches no repository returns `404 Not Found` (from the dispatcher, before
any handler runs) and creates no task. -/
theorem post_nonexistent_repo_404 (a : String) (ha : a ∈ exposed_actions)
    (env : Env) (id : String) (p : Params) (hrepo : env.repository id = none) :
    RepositoryActions.POST env id a p =
      (.notFound ("No repository with id " ++ id ++ " found"), none) := by
  simp [RepositoryActions.POST, hrepo]

/-- C6 witness: POSTing `sync` on a repository id unknown to an empty
environment yields `404` and no task. -/
theorem post_nonexistent_repo_404_witness :
    RepositoryActions.POST envEmpty "ghost" "sync" [] =
      (.notFound "No repository with id ghost found", none) :=
  post_nonexistent_repo_404 "sync" (by decide) envEmpty "ghost" [] rfl

/-- C9: the `_sync` attribute is bound to the same handler function as
`sync`, and POSTing the action `_sync` produces exactly the same result as
POSTing `sync`, for every environment, repository id and request body. -/
theorem sync_alias_same_behavior :
    RepositoryActions._sync = RepositoryActions.sync
    ∧ ∀ (env : Env) (id : String) (p : Params),
        RepositoryActions.POST env id "_sync" p = RepositoryActions.POST env id "sync" p := by
  refine ⟨rfl, ?_⟩
  intro env id p
  unfold RepositoryActions.POST
  by_cases hr : (env.repository id).isNone
  · simp [hr]
  · simp [hr, show getAction "_sync" = some ActionHandler.sync from rfl,
      show getAction "sync" = some ActionHandler.sync from rfl]

/-- C10: every action name in `exposed_actions` resolves to a defined handler
method, and POSTing any exposed action never takes the "No implementation
found" internal-server-error branch. -/
theorem exposed_actions_have_handlers (a : String) (ha : a ∈ exposed_actions) :
    (getAction a).isSome = true
    ∧ ∀ (env : Env) (id : String) (p : Params),
        (RepositoryActions.POST env id a p).1.isInternalServerError = false := by
  have hsome : (getAction a).isSome = true :=
    List.all_eq_true.mp getAction_exposed_all a ha
  refine ⟨hsome, ?_⟩
  intro env id p
  unfold RepositoryActions.POST
  by_cases hr : (env.repository id).isNone
  · simp [hr, Response.isInternalServerError]
  · rcases hg : getAction a with _ | hd
    · rw [hg] at hsome
      simp at hsome
    · simp [hr, hg, runAction_not_ise]

/-- C10 witness: `"sync"` resolves to a handler, and POSTing it on a concrete
environment does not produce the no-implementation internal server error. -/
theorem exposed_actions_have_handlers_witness :
    (getAction "sync").isSome = true
    ∧ (RepositoryActions.POST envAccept "repo-a" "sync" []).1.isInternalServerError = false :=
  ⟨(exposed_actions_have_handlers "sync" (by decide)).1,
   (exposed_actions_have_handlers "sync" (by decide)).2 envAccept "repo-a" []⟩

/-- C3: the cancel operation has exactly three outcomes — `404 Not Found`
when no task with the id exists, `202 Accepted` with the (canceled) task
record when the task is still cancelable, and `204 No Content` with nothing
changed when the task has already completed — and a second cancel of a task
just canceled takes the `204` outcome, not the success outcome. -/
theorem cancel_three_outcomes (registry : List Task) (id action_name action_id : String) :
    (find_task registry action_id = none →
      RepositoryActionStatus.DELETE registry id action_name action_id =
        (.notFound ("No " ++ action_name ++ " with id " ++ action_id ++ " found"), registry))
    ∧ (∀ t, find_task registry action_id = some t →
        (t.state = .queued ∨ t.state = .running) →
        RepositoryActionStatus.DELETE registry id action_name action_id =
          (.accepted (.taskInfo (task_to_dict { t with state := .canceled })),
            setTask registry action_id { t with state := .canceled }))
    ∧ (∀ t, find_task registry action_id = some t →
        ¬(t.state = .queued ∨ t.state = .running) →
        RepositoryActionStatus.DELETE registry id action_name action_id =
          (.noContent, registry))
    ∧ (∀ t, find_task registry action_id = some t →
        (t.state = .queued ∨ t.state = .running) →
        (RepositoryActionStatus.DELETE
          (RepositoryActionStatus.DELETE registry id action_name action_id).2
          id action_name action_id).1 = .noContent) := by
  have hsucc : ∀ t, find_task registry action_id = some t →
      (t.state = .queued ∨ t.state = .running) →
      RepositoryActionStatus.DELETE registry id action_name action_id =
        (.accepted (.taskInfo (task_to_dict { t with state := .canceled })),
          setTask registry action_id { t with state := .canceled }) := by
    intro t hfind hstate
    simp [RepositoryActionStatus.DELETE, hfind, cancel_task, hstate]
  refine ⟨?_, hsucc, ?_, ?_⟩
  · intro hfind
    simp [RepositoryActionStatus.DELETE, hfind]
  · intro t hfind hstate
    simp [RepositoryActionStatus.DELETE, hfind, cancel_task, hstate]
  · intro t hfind hstate
    rw [hsucc t hfind hstate]
    have hfind2 : find_task (setTask registry action_id { t with state := .canceled })
        action_id = some { t with state := .canceled } :=
      find_task_setTask registry action_id t { t with state := .canceled } hfind rfl
    simp [RepositoryActionStatus.DELETE, hfind2, cancel_task]

/-- C3 witness: canceling a missing task id yields `404`; canceling the
queued `taskA` yields `202` with its canceled record; canceling it a second
time yields `204`. -/
theorem cancel_three_outcomes_witness :
    RepositoryActionStatus.DELETE [] "repo-a" "sync" "task-0" =
      (.notFound "No sync with id task-0 found", [])
    ∧ RepositoryActionStatus.DELETE [taskA] "repo-a" "sync" "task-1" =
      (.accepted (.taskInfo { id := "task-1", state := .canceled, status_path := none }),
        [{ taskA with state := .canceled }])
    ∧ (RepositoryActionStatus.DELETE
        (RepositoryActionStatus.DELETE [taskA] "repo-a" "sync" "task-1").2
        "repo-a" "sync" "task-1").1 = .noContent :=
  ⟨(cancel_three_outcomes [] "repo-a" "sync" "task-0").1 rfl,
   (cancel_three_outcomes [taskA] "repo-a" "sync" "task-1").2.1 taskA rfl (Or.inl rfl),
   (cancel_three_outcomes [taskA] "repo-a" "sync" "task-1").2.2.2 taskA rfl (Or.inl rfl)⟩

/-- C4: the status query returns `404 Not Found` exactly for task ids with no
task, and `200 OK` with that task's status record for existing ids — never an
empty or default record for a missing id. -/
theorem status_get_404_or_record (registry : List Task) (id action_name action_id : String) :
    (find_task registry action_id = none →
      RepositoryActionStatus.GET registry id action_name action_id =
        .notFound ("No " ++ action_name ++ " with id " ++ action_id ++ " found"))
    ∧ (∀ t, find_task registry action_id = some t →
      RepositoryActionStatus.GET registry id action_name action_id =
        .ok (.taskInfo (task_to_dict t))) := by
  constructor
  · intro hfind
    simp [RepositoryActionStatus.GET, task_status, hfind]
  · intro t hfind
    simp [RepositoryActionStatus.GET, task_status, hfind]

/-- C4 witness: querying a missing task id yields `404`; querying `taskA`'s
id yields `200` with its record. -/
theorem status_get_404_or_record_witness :
    RepositoryActionStatus.GET [] "repo-a" "sync" "task-0" =
      .notFound "No sync with id task-0 found"
    ∧ RepositoryActionStatus.GET [taskA] "repo-a" "sync" "task-1" =
      .ok (.taskInfo { id := "task-1", state := .queued, status_path := none }) :=
  ⟨(status_get_404_or_record [] "repo-a" "sync" "task-0").1 rfl,
   (status_get_404_or_record [taskA] "repo-a" "sync" "task-1").2 taskA rfl⟩

/-- The kwargs-side guard in the history filter is likewise redundant. -/
theorem guard_contains_values (l : List (String × String)) (x : String) :
    (!l.isEmpty && (l.map Prod.snd).contains x) = (l.map Prod.snd).contains x := by
  cases l <;> simp

/-- The two-stage history lookup — `find_async` by method name, then the
argument-membership filter — equals one filter of the registry by the
combined predicate. -/
theorem history_filter_eq (registry : List Task) (id : String) :
    (find_async registry "_sync").filter (historyMatches id) =
      registry.filter (fun t => t.method_name == "_sync" &&
        (t.args.contains id || (t.kwargs.map Prod.snd).contains id)) := by
  unfold find_async
  rw [List.filter_filter]
  apply List.filter_congr
  intro t _
  unfold historyMatches
  rw [guard_contains, guard_contains_values]
  exact Bool.and_comm _ _

/-- C7: the task-history query succeeds only for the action names `sync` and
`_sync` — any other name yields `404` — and for those two names it returns
exactly the tasks whose method name is `_sync` and whose args contain the
repository id or whose kwargs values contain it, in registry (creation)
order, or `404` when no such task exists. -/
theorem history_get_spec (registry : List Task) (id action_name : String)
    (matching : List Task)
    (hm : matching = registry.filter (fun t => t.method_name == "_sync" &&
        (t.args.contains id || (t.kwargs.map Prod.snd).contains id))) :
    (action_name ≠ "sync" → action_name ≠ "_sync" →
      RepositoryActions.GET registry id action_name =
        .notFound ("No information for " ++ action_name ++ " on repository " ++ id))
    ∧ (action_name = "sync" ∨ action_name = "_sync" →
      (matching = [] →
        RepositoryActions.GET registry id action_name =
          .notFound ("No recent " ++ action_name ++ " on repository " ++ id ++ " found"))
      ∧ (matching ≠ [] →
        RepositoryActions.GET registry id action_name =
          .ok (.taskInfos (matching.map taskInfoOf)))) := by
  constructor
  · intro h1 h2
    have hb1 : (action_name == "sync") = false := by
      simpa using h1
    have hb2 : (action_name == "_sync") = false := by
      simpa using h2
    simp [RepositoryActions.GET, action_methods, List.lookup, hb1, hb2]
  · intro h
    have hlookup : List.lookup action_name action_methods = some "_sync" := by
      rcases h with rfl | rfl <;> rfl
    constructor
    · intro hcond
      simp only [RepositoryActions.GET, hlookup]
      simp only [history_filter_eq registry id, ← hm]
      simp [hcond]
    · intro hcond
      simp only [RepositoryActions.GET, hlookup]
      simp only [history_filter_eq registry id, ← hm]
      simp [List.isEmpty_iff, hcond]

/-- C7 witness: an unknown action name yields `404`; the `sync` history on
`repo-a` returns exactly the matching `_sync` task; the history on a
repository nothing synced yields `404`. -/
theorem history_get_spec_witness :
    RepositoryActions.GET [taskA] "repo-a" "clone" =
      .notFound "No information for clone on repository repo-a"
    ∧ RepositoryActions.GET [taskA] "repo-a" "sync" =
      .ok (.taskInfos [{ id := "task-1", state := .queued, status_path := some "task-1/" }])
    ∧ RepositoryActions.GET [taskA] "repo-z" "sync" =
      .notFound "No recent sync on repository repo-z found" :=
  ⟨(history_get_spec [taskA] "repo-a" "clone" [taskA] rfl).1 (by decide) (by decide),
   (history_get_spec [taskA] "repo-a" "sync" [taskA] rfl).2 (Or.inl rfl) |>.2 (by decide),
   (history_get_spec [taskA] "repo-z" "sync" [] rfl).2 (Or.inl rfl) |>.1 rfl⟩

/-- C8: the persisted `TaskSchedule` record satisfies the storage contract —
creating a second schedule with an existing name is rejected with a name
conflict (leaving the store unchanged), the dispatch interval may be null,
`next_dispatch` defaults to the creation time, the new record's last-task
reference starts null, deleting a task nulls every reference to it, and a
lookup through a nulled reference returns "no task" rather than crashing. -/
theorem taskschedule_storage_contract (store : List TaskSchedule) (now : Nat)
    (pid : String) (interval : Option Nat) (name task_name : String)
    (tasks : List Task) (tid : String) :
    ((∃ s ∈ store, s.name = name) →
      createSchedule store now pid interval name task_name = .error .nameConflict)
    ∧ ((∀ s ∈ store, s.name ≠ name) →
      createSchedule store now pid interval name task_name =
        .ok (store ++ [{ pulp_id := pid, pulp_created := now, dispatch_interval := interval,
                         name := name, next_dispatch := some now, task_name := task_name,
                         last_task := none }]))
    ∧ (∀ s ∈ store, s.last_task = some tid →
        { s with last_task := none } ∈ deleteTaskRefs store tid
        ∧ lookupLastTask tasks { s with last_task := none } = none) := by
  refine ⟨?_, ?_, ?_⟩
  · rintro ⟨s, hs, hn⟩
    unfold createSchedule
    rw [if_pos]
    exact List.any_eq_true.mpr ⟨s, hs, by simp [hn]⟩
  · intro h
    have hfalse : store.any (fun s => s.name == name) = false := by
      rw [List.any_eq_false]
      intro s hs
      simp [h s hs]
    unfold createSchedule
    rw [hfalse]
    rfl
  · intro s hs hlast
    constructor
    · unfold deleteTaskRefs
      rw [List.mem_map]
      exact ⟨s, hs, by rw [if_pos hlast]⟩
    · simp [lookupLastTask]

/-- C8 witness: a duplicate name is rejected; a fresh one-shot schedule is
appended with `next_dispatch` defaulted to the creation time and no last
task; deleting the referenced task nulls the reference and the lookup through
it returns no task. -/
theorem taskschedule_storage_contract_witness :
    createSchedule [schedNightly] 7 "uuid-2" none "nightly" "sync" = .error .nameConflict
    ∧ createSchedule [schedNightly] 7 "uuid-2" none "weekly" "sync" =
      .ok [schedNightly,
           { pulp_id := "uuid-2", pulp_created := 7, dispatch_interval := none,
             name := "weekly", next_dispatch := some 7, task_name := "sync",
             last_task := none }]
    ∧ ({ schedNightly with last_task := none } ∈ deleteTaskRefs [schedNightly] "task-1"
        ∧ lookupLastTask [] { schedNightly with last_task := none } = none) :=
  ⟨(taskschedule_storage_contract [schedNightly] 7 "uuid-2" none "nightly" "sync" [] "task-1").1
      ⟨schedNightly, by simp, rfl⟩,
   (taskschedule_storage_contract [schedNightly] 7 "uuid-2" none "weekly" "sync" [] "task-1").2.1
      (by intro s hs; simp at hs; subst hs; decide),
   (taskschedule_storage_contract [schedNightly] 7 "uuid-2" none "weekly" "sync" [] "task-1").2.2
      schedNightly (by simp) rfl⟩

end Pulp
